import Mathlib

/-!
Shallow embedding of the core of the `dataflow` repository, for verifying
the natural-language specification against the code.

Covered source files:
- `src/dataflow/utils/loop_control.py` (execution gates)
- `src/dataflow/outputs/router.py` (output router)
- `src/dataflow/services/orchestrator.py` (service orchestrator)
- `src/dataflow/symbology/databento.py` (two-hop symbol resolution)
- `src/dataflow/extractors/historical/onyx.py` (historical date-range defaults)

Python datetimes are modelled as an absolute integer timestamp together with
an optional timezone tag (`none` = naive).  Wall-clock readings made by the
code (`self._now()`) are threaded in explicitly, either as a single `now`
argument or as a list of successive clock readings.  Exceptions are modelled
with `Except String`; calls that only sleep are modelled by the list of sleep
durations they would request (sleeping does not change gate state).
-/

namespace Dataflow

/-! ## Timezone / datetime model -/

/-- `tzinfo` of a Python datetime: `none` is a naive datetime, `some z` is an
aware datetime in zone `z` (zoneinfo interns zone objects, so two aware
datetimes in the same zone have equal `tzinfo`). -/
abbrev TzInfo := Option String

/-- A Python `datetime`: an absolute instant `t` plus its `tzinfo` tag. -/
structure Datetime where
  tz : TzInfo
  t : Int
deriving DecidableEq, Repr

/-! ## `RuntimeControl` (src/dataflow/utils/loop_control.py) -/

/-- State of a `RuntimeControl` gate after `__init__` ran (threading fields
`run_in_thread` / `new_thread` / `stop_event` are not modelled; they do not
enter the claims below, which are about inline mode and `should_continue`). -/
structure RuntimeControl where
  start : Datetime
  end_ : Datetime
  pollSeconds : Int
  tz : TzInfo
  maxJob : Option Nat
  done : Nat
deriving DecidableEq, Repr

/-- `RuntimeControl.get_timezone`: returns the shared `tzinfo` of `start` and
`end`, raising `ValueError` when they differ. -/
def RuntimeControl.get_timezone (start end_ : Datetime) : Except String TzInfo :=
  if start.tz = end_.tz then Except.ok start.tz
  else Except.error "start and end timezones are not compatible"

/-- `RuntimeControl.__init__` restricted to datetime arguments: stores the
fields, then computes `self._tz = self.get_timezone()`, which raises when the
timezones of `start` and `end` differ, so construction fails there. -/
def RuntimeControl.init (start end_ : Datetime) (pollSeconds : Int)
    (maxJob : Option Nat) : Except String RuntimeControl :=
  match RuntimeControl.get_timezone start end_ with
  | Except.ok tzv =>
      Except.ok { start := start, end_ := end_, pollSeconds := pollSeconds,
                  tz := tzv, maxJob := maxJob, done := 0 }
  | Except.error e => Except.error e

/-- `RuntimeControl.should_continue` at clock reading `now`:
`if self.max_job is not None: return self._now() < self.end or self.done < self.max_job`
`else: return self._now() < self.end`. -/
def RuntimeControl.should_continue (now : Int) (g : RuntimeControl) : Bool :=
  match g.maxJob with
  | some m => decide (now < g.end_.t) || decide (g.done < m)
  | none => decide (now < g.end_.t)

/-- The specification's formula for `should_continue` (spec section 4.1):
`now < end` AND (quota is unset OR done-counter < quota).  Kept separate so
it can be compared with the code's `RuntimeControl.should_continue`. -/
def spec_should_continue (now : Int) (g : RuntimeControl) : Bool :=
  decide (now < g.end_.t) &&
    (match g.maxJob with
     | some m => decide (g.done < m)
     | none => true)

/-- `RuntimeControl.wait_until_start` at clock reading `now`: returns the
list of sleep durations requested (empty when `now >= start`, otherwise one
sleep of `start - now`); gate state is unchanged. -/
def RuntimeControl.wait_until_start (now : Int) (g : RuntimeControl) : List Int :=
  if now ≥ g.start.t then [] else [g.start.t - now]

/-- `RuntimeControl.sleep_tick` at clock reading `now`: no sleep when the
gate would stop, otherwise one sleep of `min(poll_seconds, max(0, end - now))`. -/
def RuntimeControl.sleep_tick (now : Int) (g : RuntimeControl) : List Int :=
  if g.should_continue now = false then []
  else [min g.pollSeconds (max 0 (g.end_.t - now))]

/-- `RuntimeControl.add_job_done`. -/
def RuntimeControl.add_job_done (count : Nat) (g : RuntimeControl) : RuntimeControl :=
  { g with done := g.done + count }

/-- The `while` loop of the inline branch of `RuntimeControl.__call__`:
`clocks` are the successive readings of `self._now()` made by
`should_continue` (the loop stops if they run out), `work i` is the value
returned by the `i`-th invocation of `func` (a job count, added to `done`
when truthy).  Returns the number of `func` invocations and the final gate
state. -/
def RuntimeControl.runInlineLoop (work : Nat → Nat) :
    List Int → RuntimeControl → Nat → Nat × RuntimeControl
  | [], g, i => (i, g)
  | now :: rest, g, i =>
      if g.should_continue now then
        let jobDone := work i
        let g' := if jobDone ≠ 0 then g.add_job_done jobDone else g
        RuntimeControl.runInlineLoop work rest g' (i + 1)
      else (i, g)

/-- The wrapper produced by `RuntimeControl.__call__` in inline mode
(`run_in_thread = False`).  The first clock reading feeds the initial
`if not self.should_continue(): return` skip check; the remaining readings
drive the `while` loop.  `wait_until_start` and `on_idle`/`sleep_tick` only
sleep, so they are not tracked here.  Returns the number of times the work
function was invoked and the final gate state. -/
def RuntimeControl.callInline (g : RuntimeControl) (clocks : List Int)
    (work : Nat → Nat) : Nat × RuntimeControl :=
  match clocks with
  | [] => (0, g)
  | now :: rest =>
      if g.should_continue now = false then (0, g)
      else RuntimeControl.runInlineLoop work rest g 0

/-! ## `JobCountControl` -/

/-- State of a `JobCountControl` gate: `max` is `self._max` (already
normalised by `__init__`: `None` unless `max_jobs` is a positive number). -/
structure JobCountControl where
  max : Option Nat
  done : Nat
  pollSeconds : Int
deriving DecidableEq, Repr

/-- `JobCountControl.__init__`: `self._max = max_jobs if (max_jobs is not
None and max_jobs > 0) else None`, `self._done = 0`. -/
def JobCountControl.init (maxJobs : Option Int) (pollSeconds : Int) : JobCountControl :=
  { max := match maxJobs with
           | some m => if 0 < m then some m.toNat else none
           | none => none,
    done := 0, pollSeconds := pollSeconds }

/-- `JobCountControl.should_continue`. -/
def JobCountControl.should_continue (g : JobCountControl) : Bool :=
  match g.max with
  | none => true
  | some m => decide (g.done < m)

/-- `JobCountControl.on_job_finished`: no-op when no cap is set or
`count <= 0`, otherwise `self._done += count`. -/
def JobCountControl.on_job_finished (count : Int) (g : JobCountControl) : JobCountControl :=
  match g.max with
  | none => g
  | some _ => if count ≤ 0 then g else { g with done := g.done + count.toNat }

/-- `JobCountControl.sleep_tick`: one sleep of `poll_seconds`. -/
def JobCountControl.sleep_tick (g : JobCountControl) : List Int :=
  [g.pollSeconds]

/-! ## Composite gates (`AllGate`, `AnyGate`) -/

/-- The gate tree: leaves are `RuntimeControl` and `JobCountControl`
instances, inner nodes are `AllGate` / `AnyGate` over their child list
(`__init__` rejects an empty child tuple; the claims below use two
children). -/
inductive Gate where
  | runtime : RuntimeControl → Gate
  | jobCount : JobCountControl → Gate
  | allGate : List Gate → Gate
  | anyGate : List Gate → Gate

mutual

/-- `should_continue` over the gate tree at clock reading `now`:
`AllGate` returns `all(g.should_continue() for g in self._gates)`,
`AnyGate` returns `any(...)`. -/
def Gate.should_continue (now : Int) : Gate → Bool
  | Gate.runtime g => g.should_continue now
  | Gate.jobCount g => g.should_continue
  | Gate.allGate gs => Gate.allContinue now gs
  | Gate.anyGate gs => Gate.anyContinue now gs

/-- Conjunction of `should_continue` over a child list. -/
def Gate.allContinue (now : Int) : List Gate → Bool
  | [] => true
  | g :: gs => Gate.should_continue now g && Gate.allContinue now gs

/-- Disjunction of `should_continue` over a child list. -/
def Gate.anyContinue (now : Int) : List Gate → Bool
  | [] => false
  | g :: gs => Gate.should_continue now g || Gate.anyContinue now gs

end

mutual

/-- `wait_until_start` over the gate tree: the sleep requests issued, in
order.  `JobCountControl` inherits the `BaseGate` no-op; `AllGate` and
`AnyGate` call `g.wait_until_start()` for every child in order. -/
def Gate.wait_until_start (now : Int) : Gate → List Int
  | Gate.runtime g => g.wait_until_start now
  | Gate.jobCount _ => []
  | Gate.allGate gs => Gate.waitList now gs
  | Gate.anyGate gs => Gate.waitList now gs

/-- Concatenated `wait_until_start` sleep requests of a child list. -/
def Gate.waitList (now : Int) : List Gate → List Int
  | [] => []
  | g :: gs => Gate.wait_until_start now g ++ Gate.waitList now gs

end

mutual

/-- `sleep_tick` over the gate tree: the sleep requests issued, in order;
`AllGate` and `AnyGate` call `g.sleep_tick()` for every child in order. -/
def Gate.sleep_tick (now : Int) : Gate → List Int
  | Gate.runtime g => g.sleep_tick now
  | Gate.jobCount g => g.sleep_tick
  | Gate.allGate gs => Gate.tickList now gs
  | Gate.anyGate gs => Gate.tickList now gs

/-- Concatenated `sleep_tick` sleep requests of a child list. -/
def Gate.tickList (now : Int) : List Gate → List Int
  | [] => []
  | g :: gs => Gate.sleep_tick now g ++ Gate.tickList now gs

end

mutual

/-- `on_job_finished` over the gate tree.  `RuntimeControl` inherits the
`BaseGate` no-op (it has `add_job_done` but does not override
`on_job_finished`); `AllGate` and `AnyGate` call
`g.on_job_finished(count=count)` on every child. -/
def Gate.on_job_finished (count : Int) : Gate → Gate
  | Gate.runtime g => Gate.runtime g
  | Gate.jobCount g => Gate.jobCount (g.on_job_finished count)
  | Gate.allGate gs => Gate.allGate (Gate.jobList count gs)
  | Gate.anyGate gs => Gate.anyGate (Gate.jobList count gs)

/-- `on_job_finished` mapped over a child list. -/
def Gate.jobList (count : Int) : List Gate → List Gate
  | [] => []
  | g :: gs => Gate.on_job_finished count g :: Gate.jobList count gs

end

/-! ## Output router (src/dataflow/outputs/router.py) -/

/-- The `DataOutput` sink kinds the router dispatches to. -/
inductive DataOutput where
  | database : DataOutput
  | redis : DataOutput
  | file : DataOutput
deriving DecidableEq, Repr

/-- Whether `pat` matches at the head of `l` (character-wise). -/
def headMatches : List Char → List Char → Bool
  | [], _ => true
  | _ :: _, [] => false
  | a :: as, b :: bs => a == b && headMatches as bs

/-- Whether `pat` occurs as a contiguous run inside `l`. -/
def hasSub (pat : List Char) : List Char → Bool
  | [] => headMatches pat []
  | b :: bs => headMatches pat (b :: bs) || hasSub pat bs

/-- Python's substring test `needle in hay`. -/
def strHas (hay needle : String) : Bool :=
  hasSub needle.data hay.data

/-- The destination-classification performed by the `elif` chain of
`OutputRouter.route` on one destination string:
`"database" in output or "db" in output` picks the database sink, else
`"redis" in output` the redis sink, else `"file" in output` the file sink,
else `output_type = None` (log-only). -/
def classifyDest (output : String) : Option DataOutput :=
  if strHas output "database" || strHas output "db" then some DataOutput.database
  else if strHas output "redis" then some DataOutput.redis
  else if strHas output "file" then some DataOutput.file
  else none

/-- Observable outcome of one `OutputRouter.route` call:
`attempted` lists the `save` calls made, in order (destination string and
sink kind); `raised` is true when a `save` exception escaped `route`
(aborting the loop); `logOnly` lists the destinations that were only
logged. -/
structure RouteResult where
  attempted : List (String × DataOutput)
  raised : Bool
  logOnly : List String
deriving DecidableEq, Repr

/-- `OutputRouter.route` over the `time_series.destination` list.
`saveOk dest kind` tells whether `output_model.save(message, time_series)`
returns normally for that destination (`false` = the save raises).  The
loop body has no `try`/`except`: a raising `save` propagates out of `route`,
so no later destination is processed.  The `message = self.decorate(...)`
step in the database branch is the identity, and the trailing
`if output_type is not None` log in the `else` branch is unreachable, so
neither affects the result. -/
def OutputRouter.route (saveOk : String → DataOutput → Bool) :
    List String → RouteResult
  | [] => { attempted := [], raised := false, logOnly := [] }
  | output :: rest =>
      match classifyDest output with
      | some kind =>
          if saveOk output kind then
            let r := OutputRouter.route saveOk rest
            { r with attempted := (output, kind) :: r.attempted }
          else { attempted := [(output, kind)], raised := true, logOnly := [] }
      | none =>
          let r := OutputRouter.route saveOk rest
          { r with logOnly := output :: r.logOnly }

/-! ## Service orchestrator (src/dataflow/services/orchestrator.py) -/

/-- A `ServiceGroup`, reduced to the state `start`/`stop` read and write:
its key, whether `initialize()` succeeded (extractor and output allocator
set), and its `_running` flag. -/
structure ServiceGroup where
  key : String
  initialized : Bool
  running : Bool
deriving DecidableEq, Repr

/-- `ServiceGroup.start`: returns unchanged when already running; raises
`RuntimeError` when the group was never initialized; otherwise sets
`_running = True` (and spawns the worker thread, not modelled). -/
def ServiceGroup.start (g : ServiceGroup) : Except String ServiceGroup :=
  if g.running then Except.ok g
  else if g.initialized = false then
    Except.error ("Service group " ++ g.key ++ " not initialized")
  else Except.ok { g with running := true }

/-- `ServiceGroup.stop`: returns unchanged when not running, else clears
`_running` (thread join / disconnect not modelled). -/
def ServiceGroup.stop (g : ServiceGroup) : ServiceGroup :=
  if g.running = false then g else { g with running := false }

/-- `ServiceOrchestrator`, reduced to the state `start_services` and
`stop_services` touch: the ordered service groups and the `_initialized`
and `_running` flags. -/
structure ServiceOrchestrator where
  groups : List ServiceGroup
  initialized : Bool
  running : Bool
deriving DecidableEq, Repr

/-- The `for group_key, service_group in self.service_groups.items():
service_group.start()` loop inside the `try` of `start_services`: on the
first group whose `start` raises, the loop aborts, leaving that group and
all later groups untouched.  Returns the group list as mutated so far and
the exception, if one was raised. -/
def startLoop : List ServiceGroup → List ServiceGroup × Option String
  | [] => ([], none)
  | g :: gs =>
      match g.start with
      | Except.ok g' =>
          let r := startLoop gs
          (g' :: r.1, r.2)
      | Except.error e => (g :: gs, some e)

/-- `ServiceOrchestrator.stop_services`: returns immediately when
`self._running` is false; otherwise stops every group and clears
`_running`. -/
def ServiceOrchestrator.stop_services (o : ServiceOrchestrator) : ServiceOrchestrator :=
  if o.running = false then o
  else { o with groups := o.groups.map ServiceGroup.stop, running := false }

/-- `ServiceOrchestrator.start_services`: raises `RuntimeError` when not
initialized; returns unchanged when already running; otherwise starts the
groups in order inside one `try`.  When some group's `start` raises, the
`except` branch logs, calls `self.stop_services()` (a no-op here, because
`self._running` was never set to true) and re-raises.  Returns the
orchestrator state after the call and the exception, if one escaped. -/
def ServiceOrchestrator.start_services (o : ServiceOrchestrator) :
    ServiceOrchestrator × Option String :=
  if o.initialized = false then
    (o, some "Services not initialized. Call initialize_services() first.")
  else if o.running then (o, none)
  else
    match startLoop o.groups with
    | (gs, none) => ({ o with groups := gs, running := true }, none)
    | (gs, some e) =>
        (ServiceOrchestrator.stop_services { o with groups := gs }, some e)

/-! ## Databento symbol resolution (src/dataflow/symbology/databento.py) -/

/-- Lookup in an association list, modelling Python `dict.get`. -/
def lookupAssoc (l : List (String × String)) (k : String) : Option String :=
  match l with
  | [] => none
  | (k', v) :: rest => if k' == k then some v else lookupAssoc rest k

/-- Helper for `splitDot`: accumulates the current segment (reversed). -/
def splitDotAux (acc : List Char) : List Char → List String
  | [] => [String.mk acc.reverse]
  | c :: cs =>
      if c == '.' then String.mk acc.reverse :: splitDotAux [] cs
      else splitDotAux (c :: acc) cs

/-- Python `symbol.split` on the dot character. -/
def splitDot (s : String) : List String :=
  splitDotAux [] s.data

/-- One decimal digit of a character, if any. -/
def charDigit (c : Char) : Option Nat :=
  if '0' ≤ c && c ≤ '9' then some (c.toNat - '0'.toNat) else none

/-- Accumulating decimal parse of a digit string. -/
def parseNatAux (acc : Nat) : List Char → Option Nat
  | [] => some acc
  | c :: cs =>
      match charDigit c with
      | some d => parseNatAux (acc * 10 + d) cs
      | none => none

/-- Python `int(s)` for an optionally-signed decimal literal (`none` models
the `ValueError` on malformed input). -/
def parseInt (s : String) : Option Int :=
  match s.data with
  | [] => none
  | '-' :: rest =>
      match rest with
      | [] => none
      | _ :: _ => (parseNatAux 0 rest).map (fun n => -(n : Int))
  | l => (parseNatAux 0 l).map (fun n => (n : Int))

/-- Step 1 of `resolve_cme`: the series-id → databento-id map entry.  For a
dotted id `venue.root.term` it is `root`, a dot, the continuous type, a dot,
and `term - 1` (as parsed by Python `int`).  Well-formed dotted ids are
assumed: out-of-range indexing and an unparsable term, which raise in
Python, fall back to the empty segment / `0` here. -/
def seriesIdToDbId (continuousType : String) (symbol : String) : String :=
  let parts := splitDot symbol
  let root := parts.getD 1 ""
  let term := (parseInt (parts.getD 2 "")).getD 0
  root ++ "." ++ continuousType ++ "." ++ toString (term - 1)

/-- Step 4 of `resolve_cme`: chain `series_id → db_id → instrument_id →
raw_symbol` for each input symbol in order.  A missing entry at either hop
raises `KeyError`, so the whole loop aborts and nothing is returned. -/
def chainSymbols (continuousType : String)
    (dbToInst instToRaw : List (String × String)) :
    List String → Except String (List (String × String))
  | [] => Except.ok []
  | sid :: rest =>
      let dbId := seriesIdToDbId continuousType sid
      match lookupAssoc dbToInst dbId with
      | none => Except.error ("No instrument_id found for db_id: " ++ dbId)
      | some instId =>
          match lookupAssoc instToRaw instId with
          | none => Except.error ("No raw_symbol found for instrument_id: " ++ instId)
          | some rawSym =>
              match chainSymbols continuousType dbToInst instToRaw rest with
              | Except.ok m => Except.ok ((sid, rawSym) :: m)
              | Except.error e => Except.error e

/-- `DatabentoSymbolResolve.resolve_cme`, with the two vendor symbology
responses injected: `msg1`/`dbToInst` model the step-2 response (status
message and `db_id → instrument_id` entries, first element each) and
`msg2`/`instToRaw` the step-3 response (`instrument_id → raw_symbol`).
A non-`"OK"` status raises `ValueError`; a missing hop in step 4 raises
`KeyError`; either way the whole batch fails with one exception. -/
def DatabentoSymbolResolve.resolve_cme (continuousType : String)
    (msg1 : String) (dbToInst : List (String × String))
    (msg2 : String) (instToRaw : List (String × String))
    (inputSymbols : List String) : Except String (List (String × String)) :=
  if msg1 ≠ "OK" then
    Except.error ("Failed to resolve instrument ID: " ++ msg1)
  else if msg2 ≠ "OK" then
    Except.error ("Failed to resolve raw symbol: " ++ msg2)
  else chainSymbols continuousType dbToInst instToRaw inputSymbols

/-! ## Onyx historical extractor (src/dataflow/extractors/historical/onyx.py) -/

/-- The request-range computation at the top of
`OnyxHistoricalExtractor.start_extract`:
`start = self.config["start"] if self.config["start"] else BDate("T-1").date.isoformat()`
`end = self.config["end"] if self.config["start"] else BDate("T-1").date.isoformat()`
(`priorBday` is the ISO date of the prior business day `BDate("T-1")`;
a `none` config entry is Python `None`, the falsy/unset case).  Returns the
`start` and `end` query parameters sent with every per-series request; note
the `end` branch tests `config["start"]`, not `config["end"]`. -/
def onyxRequestRange (cfgStart cfgEnd : Option String) (priorBday : String) :
    Option String × Option String :=
  let startParam := match cfgStart with
                    | some s => some s
                    | none => some priorBday
  let endParam := match cfgStart with
                  | some _ => cfgEnd
                  | none => some priorBday
  (startParam, endParam)

/-! ## Claims -/

/-- Claim C1: the claim states that with a job quota set,
`should_continue()` is `now < end` AND `done < max_job`, so it turns false
once `done` reaches the quota even while `now < end`.  The code instead
computes `self._now() < self.end or self.done < self.max_job`: at
`now = 10`, `end = 20`, `max_job = 2`, `done = 2` the code returns `True`
while the specified formula gives `False`. -/
theorem should_continue_or_instead_of_and :
    RuntimeControl.should_continue 10
      { start := ⟨none, 0⟩, end_ := ⟨none, 20⟩, pollSeconds := 1,
        tz := none, maxJob := some 2, done := 2 } = true ∧
    spec_should_continue 10
      { start := ⟨none, 0⟩, end_ := ⟨none, 20⟩, pollSeconds := 1,
        tz := none, maxJob := some 2, done := 2 } = false := by
  constructor <;> rfl

/-- Claim C4: the claim states that `end_range` defaults to the prior
business day whenever it is unspecified, in particular when `start_range`
is given.  In the code the default for `end` is guarded by
`self.config["start"]` instead of `self.config["end"]`: with
`start = "2025-01-02"` and `end` unset, the request carries `end = None`
rather than the prior business day `"2025-01-01"`; the default is applied
only when `start` is also unset. -/
theorem onyx_end_default_guarded_by_start :
    onyxRequestRange (some "2025-01-02") none "2025-01-01"
      = (some "2025-01-02", none) ∧
    onyxRequestRange none none "2025-01-01"
      = (some "2025-01-01", some "2025-01-01") ∧
    onyxRequestRange none (some "2025-03-07") "2025-01-01"
      = (some "2025-01-01", some "2025-01-01") := by
  refine ⟨rfl, rfl, rfl⟩

/-- Claim C6: the claim states that when the current time is at or past
`end` at invocation, the gate wrapper returns without invoking the work
function, regardless of the quota and the done-counter.  With a quota set
(`max_job = 5`, `done = 0`) and both clock readings at `30 ≥ end = 20`, the
wrapper does invoke the work function once (the skip check
`not self.should_continue()` fails because of the `or` with
`done < max_job`); without a quota the same readings skip it. -/
theorem wrapper_runs_work_past_end_when_quota_set :
    (RuntimeControl.callInline
      { start := ⟨none, 0⟩, end_ := ⟨none, 20⟩, pollSeconds := 1,
        tz := none, maxJob := some 5, done := 0 }
      [30, 30] (fun _ => 1)).1 = 1 ∧
    (RuntimeControl.callInline
      { start := ⟨none, 0⟩, end_ := ⟨none, 20⟩, pollSeconds := 1,
        tz := none, maxJob := none, done := 0 }
      [30, 30] (fun _ => 1)).1 = 0 := by
  constructor <;> rfl

/-- Claim C8: for every pair of child gates and every clock reading,
`AllGate(G1, G2).should_continue()` is the conjunction of the children's
`should_continue()`, and `AllGate` delegates `wait_until_start`,
`sleep_tick` and `on_job_finished` to every child (in child order). -/
theorem allGate_pair_conjunction_and_delegation
    (g1 g2 : Gate) (now : Int) (count : Int) :
    Gate.should_continue now (Gate.allGate [g1, g2])
      = (Gate.should_continue now g1 && Gate.should_continue now g2) ∧
    Gate.wait_until_start now (Gate.allGate [g1, g2])
      = Gate.wait_until_start now g1 ++ Gate.wait_until_start now g2 ∧
    Gate.sleep_tick now (Gate.allGate [g1, g2])
      = Gate.sleep_tick now g1 ++ Gate.sleep_tick now g2 ∧
    Gate.on_job_finished count (Gate.allGate [g1, g2])
      = Gate.allGate [Gate.on_job_finished count g1, Gate.on_job_finished count g2] := by
  refine ⟨?_, ?_, ?_, ?_⟩
  · simp [Gate.should_continue, Gate.allContinue]
  · simp [Gate.wait_until_start, Gate.waitList]
  · simp [Gate.sleep_tick, Gate.tickList]
  · simp [Gate.on_job_finished, Gate.jobList]

/-- Claim C9: constructing a `RuntimeControl` time-window gate succeeds
exactly when `start` and `end` carry the same timezone information (both
naive, or both the same zone); a mismatch raises `ValueError` from
`get_timezone` inside `__init__`, before any work can run. -/
theorem runtimeControl_init_ok_iff_same_tz
    (s e : Datetime) (poll : Int) (mj : Option Nat) :
    (RuntimeControl.init s e poll mj).isOk = decide (s.tz = e.tz) := by
  unfold RuntimeControl.init RuntimeControl.get_timezone
  by_cases h : s.tz = e.tz <;> simp [h, Except.isOk, Except.toBool]

/-- Claim C2 (counterexample): the claim states that an exception raised by
one destination's save does not prevent the save attempts for the remaining
destinations.  With destinations `["db_primary", "redis_cache"]` and a
relational save that raises, `route` attempts only the relational save: the
exception escapes `route` (`raised = true`) and the key-value destination is
never attempted. -/
theorem route_db_failure_skips_redis :
    OutputRouter.route
      (fun _ kind => match kind with
                     | DataOutput.database => false
                     | _ => true)
      ["db_primary", "redis_cache"]
      = { attempted := [("db_primary", DataOutput.database)],
          raised := true, logOnly := [] } := by
  rfl

/-- Claim C2 (amended): the loop body of `OutputRouter.route` has no
exception handling, so when the save for a recognized destination raises,
the exception propagates out of `route` and the remaining destinations of
the same message are not attempted (and the failure is not logged by the
router). -/
theorem route_save_exception_aborts_rest
    (saveOk : String → DataOutput → Bool) (output : String)
    (rest : List String) (kind : DataOutput)
    (hclass : classifyDest output = some kind)
    (hfail : saveOk output kind = false) :
    OutputRouter.route saveOk (output :: rest)
      = { attempted := [(output, kind)], raised := true, logOnly := [] } := by
  simp only [OutputRouter.route, hclass, hfail]
  simp

/-- Claim C2 (witness for the amended theorem). -/
theorem route_save_exception_aborts_rest_witness :
    OutputRouter.route
      (fun _ kind => match kind with
                     | DataOutput.database => false
                     | _ => true)
      ["db_store", "redis_live", "file_sink"]
      = { attempted := [("db_store", DataOutput.database)],
          raised := true, logOnly := [] } :=
  route_save_exception_aborts_rest _ "db_store" ["redis_live", "file_sink"]
    DataOutput.database (by rfl) (by rfl)

/-- Claim C7 (counterexample): the claim states that a destination string
containing `"redis"` is dispatched to the key-value sink manager.  The
destination `"redis_db"` contains `"redis"`, yet `route` dispatches it to
the relational sink manager (the database/db test wins), and the key-value
manager sees no save. -/
theorem route_redis_db_dispatches_to_database :
    strHas "redis_db" "redis" = true ∧
    OutputRouter.route (fun _ _ => true) ["redis_db"]
      = { attempted := [("redis_db", DataOutput.database)],
          raised := false, logOnly := [] } := by
  exact ⟨rfl, rfl⟩

/-- Claim C7 (amended): `route` classifies each destination string by the
`elif` chain — a string containing `"database"` or `"db"` is dispatched to
the relational sink manager; a string containing `"redis"` but no
database/db token to the key-value sink manager; a string containing
`"file"` but none of the earlier tokens to the file sink manager; and a
string containing none of the tokens is only logged: it is dispatched to no
sink and does not raise.  (Saves succeed here; the failing-save behavior is
claim C2.) -/
theorem route_classifies_by_token_chain (s : String) :
    ((strHas s "database" || strHas s "db") = true →
      OutputRouter.route (fun _ _ => true) [s]
        = { attempted := [(s, DataOutput.database)], raised := false, logOnly := [] }) ∧
    (strHas s "redis" = true → (strHas s "database" || strHas s "db") = false →
      OutputRouter.route (fun _ _ => true) [s]
        = { attempted := [(s, DataOutput.redis)], raised := false, logOnly := [] }) ∧
    (strHas s "file" = true → (strHas s "database" || strHas s "db") = false →
      strHas s "redis" = false →
      OutputRouter.route (fun _ _ => true) [s]
        = { attempted := [(s, DataOutput.file)], raised := false, logOnly := [] }) ∧
    ((strHas s "database" || strHas s "db") = false → strHas s "redis" = false →
      strHas s "file" = false →
      OutputRouter.route (fun _ _ => true) [s]
        = { attempted := [], raised := false, logOnly := [s] }) := by
  refine ⟨?_, ?_, ?_, ?_⟩ <;> intros <;>
    simp_all [OutputRouter.route, classifyDest]

/-- Claim C7 (witness for the amended theorem). -/
theorem route_classifies_by_token_chain_witness :
    OutputRouter.route (fun _ _ => true) ["redis_main"]
      = { attempted := [("redis_main", DataOutput.redis)],
          raised := false, logOnly := [] } :=
  (route_classifies_by_token_chain "redis_main").2.1 (by rfl) (by rfl)

/-- Claim C10: destination classification is exclusive with a fixed
precedence — the database/db token test is applied first, then redis, then
file: a database/db token always yields the relational sink; the key-value
sink is chosen only when a redis token is present and no database/db token
is; the file sink only when a file token is present and neither earlier
token is.  Hence `"redis_db"` classifies to the relational sink only and
the key-value manager never sees it. -/
theorem classifyDest_precedence :
    (∀ s : String, (strHas s "database" || strHas s "db") = true →
      classifyDest s = some DataOutput.database) ∧
    (∀ s : String, classifyDest s = some DataOutput.redis →
      strHas s "redis" = true ∧ (strHas s "database" || strHas s "db") = false) ∧
    (∀ s : String, classifyDest s = some DataOutput.file →
      strHas s "file" = true ∧ (strHas s "database" || strHas s "db") = false ∧
        strHas s "redis" = false) ∧
    classifyDest "redis_db" = some DataOutput.database ∧
    (OutputRouter.route (fun _ _ => true) ["redis_db"]).attempted
      = [("redis_db", DataOutput.database)] := by
  refine ⟨?_, ?_, ?_, rfl, rfl⟩
  · intro s h
    simp [classifyDest, h]
  · intro s h
    unfold classifyDest at h
    by_cases h1 : (strHas s "database" || strHas s "db") = true
    · simp [h1] at h
    · by_cases h2 : strHas s "redis" = true
      · exact ⟨h2, by simpa using h1⟩
      · simp [h1, h2] at h
  · intro s h
    unfold classifyDest at h
    by_cases h1 : (strHas s "database" || strHas s "db") = true
    · simp [h1] at h
    · by_cases h2 : strHas s "redis" = true
      · simp [h1, h2] at h
      · by_cases h3 : strHas s "file" = true
        · exact ⟨h3, by simpa using h1, by simpa using h2⟩
        · simp [h1, h2, h3] at h

/-- Claim C10 (witness): the first component applied at a destination
containing both a file and a db token. -/
theorem classifyDest_precedence_witness :
    classifyDest "filedb" = some DataOutput.database :=
  classifyDest_precedence.1 "filedb" (by rfl)

/-- Helper: `startLoop` starts a block of initialized, not-yet-running
groups and continues with the remaining list. -/
theorem startLoop_ok_append (pre rest : List ServiceGroup)
    (hpre : ∀ x ∈ pre, x.initialized = true ∧ x.running = false) :
    startLoop (pre ++ rest)
      = ((pre.map fun x => { x with running := true }) ++ (startLoop rest).1,
         (startLoop rest).2) := by
  induction pre with
  | nil => simp
  | cons g gs ih =>
      have hg := hpre g (List.mem_cons_self g gs)
      have hgs : ∀ x ∈ gs, x.initialized = true ∧ x.running = false :=
        fun x hx => hpre x (List.mem_cons_of_mem g hx)
      simp [startLoop, ServiceGroup.start, hg.1, hg.2, ih hgs]

/-- Claim C3 (counterexample): the claim states that an exception while
starting one group does not prevent the start attempts of the remaining
groups.  With groups `alpha` (initialized), `beta` (never initialized, so
its `start` raises `RuntimeError`) and `gamma` (initialized),
`start_services` leaves `gamma` unstarted and re-raises. -/
theorem start_services_third_group_never_started :
    (ServiceOrchestrator.start_services
        { groups := [⟨"alpha", true, false⟩, ⟨"beta", false, false⟩,
                     ⟨"gamma", true, false⟩],
          initialized := true, running := false }).1.groups.map ServiceGroup.running
      = [true, false, false] ∧
    (ServiceOrchestrator.start_services
        { groups := [⟨"alpha", true, false⟩, ⟨"beta", false, false⟩,
                     ⟨"gamma", true, false⟩],
          initialized := true, running := false }).2
      = some "Service group beta not initialized" := by
  exact ⟨rfl, rfl⟩

/-- Claim C3 (amended): the group-start loop of `start_services` runs in a
single `try`: when starting one group raises, the exception is logged and
re-raised, the remaining groups are not started, and the groups already
started are left running — the `stop_services()` call in the `except`
branch is a no-op because the orchestrator's `_running` flag was never
set. -/
theorem start_services_failure_aborts_rest
    (pre post : List ServiceGroup) (g : ServiceGroup)
    (hpre : ∀ x ∈ pre, x.initialized = true ∧ x.running = false)
    (hginit : g.initialized = false) (hgrun : g.running = false) :
    ServiceOrchestrator.start_services
        { groups := pre ++ g :: post, initialized := true, running := false }
      = ({ groups := (pre.map fun x => { x with running := true }) ++ g :: post,
           initialized := true, running := false },
         some ("Service group " ++ g.key ++ " not initialized")) := by
  have h1 : startLoop (pre ++ g :: post)
      = ((pre.map fun x => { x with running := true }) ++ g :: post,
         some ("Service group " ++ g.key ++ " not initialized")) := by
    rw [startLoop_ok_append pre (g :: post) hpre]
    simp [startLoop, ServiceGroup.start, hginit, hgrun]
  simp [ServiceOrchestrator.start_services, h1, ServiceOrchestrator.stop_services]

/-- Claim C3 (witness for the amended theorem). -/
theorem start_services_failure_aborts_rest_witness :
    ServiceOrchestrator.start_services
        { groups := [⟨"A", true, false⟩, ⟨"B", false, false⟩, ⟨"C", true, false⟩],
          initialized := true, running := false }
      = ({ groups := [⟨"A", true, true⟩, ⟨"B", false, false⟩, ⟨"C", true, false⟩],
           initialized := true, running := false },
         some "Service group B not initialized") :=
  start_services_failure_aborts_rest [⟨"A", true, false⟩] [⟨"C", true, false⟩]
    ⟨"B", false, false⟩
    (by
      intro x hx
      simp only [List.mem_singleton] at hx
      subst hx
      exact ⟨rfl, rfl⟩)
    rfl rfl

/-- Helper: when the step-4 chain of `resolve_cme` succeeds, both hops were
present for every input series. -/
theorem chainSymbols_ok_mem (ctype : String)
    (dbToInst instToRaw : List (String × String)) :
    ∀ (input : List String) (m : List (String × String)),
      chainSymbols ctype dbToInst instToRaw input = Except.ok m →
      ∀ sid ∈ input, ∃ instId,
        lookupAssoc dbToInst (seriesIdToDbId ctype sid) = some instId ∧
        (lookupAssoc instToRaw instId).isSome = true := by
  intro input
  induction input with
  | nil =>
      intro m _ sid hsid
      simp at hsid
  | cons s0 rest ih =>
      intro m h sid hsid
      simp only [chainSymbols] at h
      split at h
      · exact Except.noConfusion h
      · rename_i instId hd
        split at h
        · exact Except.noConfusion h
        · rename_i raw hi
          split at h
          · rename_i m' hrec
            rcases List.mem_cons.mp hsid with rfl | hmem
            · exact ⟨instId, hd, by rw [hi]; rfl⟩
            · exact ih m' hrec sid hmem
          · exact Except.noConfusion h

/-- Claim C5 (counterexample): the claim states that a missing mapping at
one hop yields a per-series error and the other series' mappings are still
returned.  With a vendor response that covers `CME.HO.1` but not
`CME.CL.1`, `resolve_cme` raises one batch-wide `KeyError` and returns no
mapping at all for the batch — even though the second conjunct shows
`CME.HO.1` resolves fine on its own. -/
theorem resolve_cme_missing_hop_fails_whole_batch :
    DatabentoSymbolResolve.resolve_cme "c" "OK" [("HO.c.0", "i77")] "OK"
        [("i77", "HOX5")] ["CME.CL.1", "CME.HO.1"]
      = Except.error "No instrument_id found for db_id: CL.c.0" ∧
    DatabentoSymbolResolve.resolve_cme "c" "OK" [("HO.c.0", "i77")] "OK"
        [("i77", "HOX5")] ["CME.HO.1"]
      = Except.ok [("CME.HO.1", "HOX5")] := by
  exact ⟨rfl, rfl⟩

/-- Claim C5 (amended): `resolve_cme` treats a missing hop as a batch
failure, not a per-series one: a missing instrument-id or raw-symbol hop
raises `KeyError` (and a non-OK vendor response raises `ValueError`),
aborting the whole batch with no mappings returned; consequently a batch
only resolves when every series of the batch has both hops present. -/
theorem resolve_cme_ok_requires_all_hops (ctype : String)
    (dbToInst instToRaw : List (String × String))
    (input : List String) (m : List (String × String))
    (h : DatabentoSymbolResolve.resolve_cme ctype "OK" dbToInst "OK" instToRaw input
          = Except.ok m) :
    ∀ sid ∈ input, ∃ instId,
      lookupAssoc dbToInst (seriesIdToDbId ctype sid) = some instId ∧
      (lookupAssoc instToRaw instId).isSome = true := by
  have h' : chainSymbols ctype dbToInst instToRaw input = Except.ok m := by
    simpa [DatabentoSymbolResolve.resolve_cme] using h
  exact chainSymbols_ok_mem ctype dbToInst instToRaw input m h'

/-- Claim C5 (witness for the amended theorem). -/
theorem resolve_cme_ok_requires_all_hops_witness :
    ∃ instId,
      lookupAssoc [("CL.c.0", "i5")] (seriesIdToDbId "c" "CME.CL.1") = some instId ∧
      (lookupAssoc [("i5", "CLX5")] instId).isSome = true :=
  resolve_cme_ok_requires_all_hops "c" [("CL.c.0", "i5")] [("i5", "CLX5")]
    ["CME.CL.1"] [("CME.CL.1", "CLX5")] (by rfl) "CME.CL.1"
    (List.mem_singleton.mpr rfl)

end Dataflow
